import Mathlib

/-!
Shallow embedding of the NimbusLance invoice subsystem.

The embedded sources are:
* `src/apps/backend/src/invoice/invoice.service.ts` (`InvoiceService`:
  `create`, `findAll`, `findOne`, `update`, `remove`) — namespace `App`;
* `src/apps/backend/src/pdf/pdf.service.ts` (`PdfService.generate`);
* the invoice DTOs with their `class-validator` decorators
  (`CreateInvoiceDto`; `UpdateInvoiceDto = PartialType(CreateInvoiceDto)`
  per the repository's own module documentation in `src/unnamed/part_003`)
  together with the global `ValidationPipe` from `main.ts`
  (`src/unnamed/part_007`);
* the tutorial chapter `src/unnamed/part_003` documents a richer version of
  `invoice.service.ts`; its `findOne` and `updateStatus` (which have no
  counterpart in `apps/backend`) are embedded in namespace `Doc`.

Conventions of the embedding:
* TypeScript `number` is modelled as `ℚ` (the arithmetic involved is exact
  rational arithmetic: `x * (1 + t / 100)`).
* The database is a `Db` state (lists of rows, insertion-ordered); Prisma
  calls are embedded as pure state transformers.  A Prisma promise that can
  reject is an `Except ServiceError`; `findFirst` resolves with `null`
  (`Option`) on a miss and never rejects.
* The filesystem is an `Fs` state: a list of existing directories and an
  association list from file paths to the written content.  A
  `fs.createWriteStream` into a missing directory fails (the stream errors
  and no file appears); the synchronous caller is not informed.
* Generated ids (`uuid`) and clock readings are passed as explicit
  parameters (`freshId`, `now`).
-/

namespace NimbusLance

/-- Prisma enum `InvoiceStatus` (migration `20250803091233_add_invoice_model`). -/
inductive InvoiceStatus
  | DRAFT
  | SENT
  | PAID
  | OVERDUE
deriving DecidableEq

/-- Client row (fields relevant to invoice joins). -/
structure Client where
  id : String
  name : String
  userId : String
deriving DecidableEq

/-- Project row (fields relevant to invoice joins). -/
structure Project where
  id : String
  title : String
  clientId : String
  userId : String
deriving DecidableEq

/-- Invoice row, per the Prisma migration: `id`, `title`, optional
`description`, `status` (default DRAFT), `clientId`, optional `projectId`,
`userId`, `amountHT`, `tva` (default 20.0), `amountTTC`, optional `pdfUrl`,
`createdAt`. -/
structure Invoice where
  id : String
  title : String
  description : Option String
  status : InvoiceStatus
  clientId : String
  projectId : Option String
  userId : String
  amountHT : ℚ
  tva : ℚ
  amountTTC : ℚ
  pdfUrl : Option String
  createdAt : ℕ
deriving DecidableEq

/-- Database state: the row tables touched by the invoice subsystem. -/
structure Db where
  invoices : List Invoice
  clients : List Client
  projects : List Project
deriving DecidableEq

/-- Content written into a PDF file by `PdfService.generate`
(`pdf.service.ts` lines 23-29: title, amount HT, TVA, amount TTC). -/
structure PdfContent where
  title : String
  amountHT : ℚ
  tva : ℚ
  amountTTC : ℚ
deriving DecidableEq

/-- Filesystem state: which directories exist, and an association list from
paths of existing files to their content. -/
structure Fs where
  dirs : List String
  files : List (String × PdfContent)
deriving DecidableEq

/-- Write or overwrite the entry for path `p` in an association list of
files (the semantics of writing a file at a path). -/
def putFile : List (String × PdfContent) → String → PdfContent → List (String × PdfContent)
  | [], p, c => [(p, c)]
  | (q, d) :: rest, p, c =>
      if q = p then (p, c) :: rest else (q, d) :: putFile rest p c

/-- The storage directory `path.resolve(__dirname, '../../invoices')` of
`pdf.service.ts` line 18.  `__dirname` is a fixed process constant, so the
resolved directory is a fixed absolute path, modelled by this literal. -/
def invoicesDir : String := "/app/apps/backend/invoices"

/-- File name `invoice-<id>.pdf` (`pdf.service.ts` line 17). -/
def pdfFileName (id : String) : String := "invoice-" ++ id ++ ".pdf"

/-- Resolved file path for an invoice id (`pdf.service.ts` line 18). -/
def pdfFilePath (id : String) : String := invoicesDir ++ "/" ++ pdfFileName id

/-- The `InvoiceData` snapshot passed to `PdfService.generate`
(`pdf.service.ts` lines 6-12). -/
structure InvoiceData where
  id : String
  title : String
  amountHT : ℚ
  amountTTC : ℚ
  tva : ℚ
deriving DecidableEq

namespace PdfService

/-- Embeds `PdfService.generate` (`src/apps/backend/src/pdf/pdf.service.ts`
lines 16-34).  The function derives the path from the invoice id, opens a
write stream at that path, writes the document, and returns the path.  It
performs no directory check and no directory creation; if the storage
directory is absent the write stream fails (asynchronously, unobserved by
the caller), modelled as the filesystem staying unchanged, while `generate`
still returns the derived path. -/
def generate (fs : Fs) (invoice : InvoiceData) : String × Fs :=
  let filePath := pdfFilePath invoice.id
  let content : PdfContent :=
    { title := invoice.title
      amountHT := invoice.amountHT
      tva := invoice.tva
      amountTTC := invoice.amountTTC }
  let fs' :=
    if invoicesDir ∈ fs.dirs then
      { fs with files := putFile fs.files filePath content }
    else fs
  (filePath, fs')

end PdfService

/-- The app's `CreateInvoiceDto` (decorated fields: `@IsString title`,
optional string `description`, `@IsString clientId`, optional string
`projectId`, `@IsNumber amountHT`, optional number `tva`).  It has no
`status` field and no `amountTTC` field. -/
structure CreateInvoiceDto where
  title : String
  description : Option String
  clientId : String
  projectId : Option String
  amountHT : ℚ
  tva : Option ℚ
deriving DecidableEq

/-- The app's `UpdateInvoiceDto`: every field of `CreateInvoiceDto` made
optional (`class UpdateInvoiceDto extends PartialType(CreateInvoiceDto)`,
per the repository's documentation of
`apps/backend/src/invoice/dto/update-invoice.dto.ts` in
`src/unnamed/part_003` line 192, applied to the app's `CreateInvoiceDto`).
A field that is `none` is absent from the request body; Prisma skips
absent fields. -/
structure UpdateInvoiceDto where
  title : Option String
  description : Option String
  clientId : Option String
  projectId : Option String
  amountHT : Option ℚ
  tva : Option ℚ
deriving DecidableEq

/-- Rejection channel of a service call (a rejected Prisma promise or a
thrown `NotFoundException`; Prisma code P2025 "record not found" for
`update`/`delete` on a non-matching filter). -/
inductive ServiceError
  | notFound
deriving DecidableEq

/-- Row predicate for the Prisma filter `where: { id, userId }`. -/
def matchesOwned (id userId : String) (inv : Invoice) : Bool :=
  inv.id == id && inv.userId == userId

/-- Invoice joined with its client and project, as produced by
`include: { client: true, project: true }`. -/
structure JoinedInvoice where
  invoice : Invoice
  client : Option Client
  project : Option Project
deriving DecidableEq

/-- The relational `include`: look the invoice's client and project up by
their foreign keys. -/
def joinRelations (db : Db) (inv : Invoice) : JoinedInvoice :=
  { invoice := inv
    client := db.clients.find? (fun c => c.id == inv.clientId)
    project := inv.projectId.bind (fun pid => db.projects.find? (fun p => p.id == pid)) }

/-- Embeds `prisma.invoice.update({ where: { id: invoiceId }, data:
{ pdfUrl } })` from `invoice.service.ts` lines 38-43 (filter on `id`
alone). -/
def setPdfUrl (l : List Invoice) (id url : String) : List Invoice :=
  l.map (fun inv => if inv.id == id then { inv with pdfUrl := some url } else inv)

namespace App

/-- Embeds `InvoiceService.create` (`invoice.service.ts` lines 14-49):
`tva := dto.tva ?? 20`; `amountTTC := dto.amountHT * (1 + tva / 100)`;
insert the row with `status: 'DRAFT'` and `userId`; call
`pdfService.generate` on the persisted financial fields; store the returned
path as `pdfUrl` (filtering on `id` alone); return the created invoice
spread with the path.  Returns (returned invoice, new db, new fs). -/
def create (db : Db) (fs : Fs) (userId freshId : String) (now : ℕ)
    (dto : CreateInvoiceDto) : Invoice × Db × Fs :=
  let tva := dto.tva.getD 20
  let amountTTC := dto.amountHT * (1 + tva / 100)
  let invoice : Invoice :=
    { id := freshId
      title := dto.title
      description := dto.description
      status := InvoiceStatus.DRAFT
      clientId := dto.clientId
      projectId := dto.projectId
      userId := userId
      amountHT := dto.amountHT
      tva := tva
      amountTTC := amountTTC
      pdfUrl := none
      createdAt := now }
  let db1 : Db := { db with invoices := db.invoices ++ [invoice] }
  let gen := PdfService.generate fs
    { id := invoice.id
      title := invoice.title
      amountHT := invoice.amountHT
      amountTTC := invoice.amountTTC
      tva := invoice.tva }
  let db2 : Db := { db1 with invoices := setPdfUrl db1.invoices invoice.id gen.1 }
  ({ invoice with pdfUrl := some gen.1 }, db2, gen.2)

/-- Embeds `InvoiceService.findAll` (`invoice.service.ts` lines 51-56):
`findMany({ where: { userId }, include: { client, project } })`.  The call
has no `orderBy` clause, so rows come back in the store's own order
(modelled as insertion order). -/
def findAll (db : Db) (userId : String) : List JoinedInvoice :=
  (db.invoices.filter (fun inv => inv.userId == userId)).map (joinRelations db)

/-- Embeds `InvoiceService.findOne` (`invoice.service.ts` lines 58-63):
`findFirst({ where: { id, userId }, include: ... })`.  `findFirst` resolves
with `null` on a miss; the service returns that value unchanged and never
rejects, hence the result is always `Except.ok`. -/
def findOne (db : Db) (userId id : String) :
    Except ServiceError (Option JoinedInvoice) :=
  Except.ok ((db.invoices.find? (matchesOwned id userId)).map (joinRelations db))

/-- Field-wise effect of `prisma.invoice.update({ data: updateData })` in
`InvoiceService.update`, where `updateData = { ...dto }` plus `amountTTC`
when recomputed: a field present in the dto is written, an absent field is
left as stored; `amountTTC` is written only when `ttc = some _`.  The dto
has no `status` field, so `status` is never written. -/
def applyInvoiceUpdate (dto : UpdateInvoiceDto) (ttc : Option ℚ) (inv : Invoice) : Invoice :=
  { inv with
    title := dto.title.getD inv.title
    description := match dto.description with
      | some d => some d
      | none => inv.description
    clientId := dto.clientId.getD inv.clientId
    projectId := match dto.projectId with
      | some p => some p
      | none => inv.projectId
    amountHT := dto.amountHT.getD inv.amountHT
    tva := dto.tva.getD inv.tva
    amountTTC := ttc.getD inv.amountTTC }

/-- Embeds `InvoiceService.update` (`invoice.service.ts` lines 65-80):
`updateData := { ...dto }`; only when `dto.amountHT` is present,
`updateData.amountTTC := dto.amountHT * (1 + (dto.tva ?? 20) / 100)`;
then `prisma.invoice.update({ where: { id, userId }, data: updateData,
include: ... })`, which rejects with "record not found" (P2025) when no row
matches both `id` and `userId`, and otherwise writes the row and returns it
joined. -/
def update (db : Db) (userId id : String) (dto : UpdateInvoiceDto) :
    Except ServiceError (JoinedInvoice × Db) :=
  let ttc : Option ℚ :=
    match dto.amountHT with
    | some aht => some (aht * (1 + (dto.tva.getD 20) / 100))
    | none => none
  match db.invoices.find? (matchesOwned id userId) with
  | none => Except.error ServiceError.notFound
  | some inv =>
      let inv' := applyInvoiceUpdate dto ttc inv
      let db' : Db :=
        { db with invoices := (db.invoices.map
            (fun j => if matchesOwned id userId j then inv' else j)) }
      Except.ok (joinRelations db' inv', db')

/-- Embeds `InvoiceService.remove` (`invoice.service.ts` lines 82-86):
`prisma.invoice.delete({ where: { id, userId } })`, which rejects with
"record not found" (P2025) when no row matches, and otherwise deletes the
row and returns it.  The method performs no filesystem operation, so the
`Fs` state passes through unchanged. -/
def remove (db : Db) (fs : Fs) (userId id : String) :
    Except ServiceError (Invoice × Db × Fs) :=
  match db.invoices.find? (matchesOwned id userId) with
  | none => Except.error ServiceError.notFound
  | some inv =>
      Except.ok (inv,
        { db with invoices := db.invoices.filter (fun j => !(matchesOwned id userId j)) },
        fs)

end App

namespace Doc

/-- Embeds `findOne` of the version of `invoice.service.ts` documented in
`src/unnamed/part_003` lines 408-422: `findFirst({ where: { id, userId },
include: ... })`, then `throw new NotFoundException` when the result is
`null`, otherwise return the joined invoice. -/
def findOne (db : Db) (userId id : String) :
    Except ServiceError JoinedInvoice :=
  match db.invoices.find? (matchesOwned id userId) with
  | none => Except.error ServiceError.notFound
  | some inv => Except.ok (joinRelations db inv)

/-- Embeds `updateStatus` of the version of `invoice.service.ts` documented
in `src/unnamed/part_003` lines 499-506: `await this.findOne(userId, id)`
(propagating its `NotFoundException`), then
`prisma.invoice.updateMany({ where: { id, userId }, data: { status } })`,
which writes only the `status` column of every matching row and resolves
with the count of updated rows.  No other column is written and
`pdfService` is never invoked. -/
def updateStatus (db : Db) (userId id : String) (status : InvoiceStatus) :
    Except ServiceError (ℕ × Db) :=
  match findOne db userId id with
  | Except.error e => Except.error e
  | Except.ok _ =>
      Except.ok ((db.invoices.filter (matchesOwned id userId)).length,
        { db with invoices := (db.invoices.map
            (fun j => if matchesOwned id userId j then { j with status := status } else j)) })

end Doc

/-- A raw JSON field of a request body: absent, a string value, or a
numeric value. -/
inductive RawField
  | missing
  | str (s : String)
  | num (q : ℚ)
deriving DecidableEq

/-- Raw request body for `POST /invoices`, before the global
`ValidationPipe` (`main.ts`, `src/unnamed/part_007`: `useGlobalPipes(new
ValidationPipe({ whitelist: true }))`) validates it against
`CreateInvoiceDto`; `whitelist: true` strips undecorated properties, so
only the six decorated fields reach the service. -/
structure RawCreateInvoice where
  title : RawField
  description : RawField
  clientId : RawField
  projectId : RawField
  amountHT : RawField
  tva : RawField
deriving DecidableEq

/-- A 400 Bad Request produced by the `ValidationPipe` when a decorator
fails. -/
inductive ValidationError
  | badRequest
deriving DecidableEq

/-- Semantics of `@IsString` on a required field. -/
def requireString : RawField → Option String
  | RawField.str s => some s
  | _ => none

/-- Semantics of `@IsOptional @IsString`. -/
def optionalString : RawField → Option (Option String)
  | RawField.missing => some none
  | RawField.str s => some (some s)
  | _ => none

/-- Semantics of `@IsNumber` on a required field.  No `@Min`,
`@IsPositive` or comparable decorator is attached anywhere in the DTO, so
any rational — negative included — is accepted. -/
def requireNumber : RawField → Option ℚ
  | RawField.num q => some q
  | _ => none

/-- Semantics of `@IsOptional @IsNumber`. -/
def optionalNumber : RawField → Option (Option ℚ)
  | RawField.missing => some none
  | RawField.num q => some (some q)
  | _ => none

/-- The `ValidationPipe` checking a raw body against the app's
`CreateInvoiceDto` decorators: `title` string, `description` optional
string, `clientId` string, `projectId` optional string, `amountHT` number,
`tva` optional number.  Any decorator failure rejects the request with a
400 before the controller method runs. -/
def validateCreateInvoice (raw : RawCreateInvoice) :
    Except ValidationError CreateInvoiceDto :=
  match (do
      let t ← requireString raw.title
      let d ← optionalString raw.description
      let c ← requireString raw.clientId
      let p ← optionalString raw.projectId
      let a ← requireNumber raw.amountHT
      let v ← optionalNumber raw.tva
      pure { title := t, description := d, clientId := c,
             projectId := p, amountHT := a, tva := v } : Option CreateInvoiceDto) with
  | some dto => Except.ok dto
  | none => Except.error ValidationError.badRequest

/-- The `POST /invoices` pipeline (`invoice.controller.ts` lines 23-26
behind the global `ValidationPipe`): validate the body; on failure the
request is rejected and neither the database nor the filesystem is
touched; on success run `InvoiceService.create`. -/
def createEndpoint (db : Db) (fs : Fs) (userId freshId : String) (now : ℕ)
    (raw : RawCreateInvoice) : Except ValidationError Invoice × Db × Fs :=
  match validateCreateInvoice raw with
  | Except.error e => (Except.error e, db, fs)
  | Except.ok dto =>
      let r := App.create db fs userId freshId now dto
      (Except.ok r.1, r.2.1, r.2.2)


/-! ## Concrete fixtures used by the theorems -/

/-- A stored invoice used as concrete test data: 200 HT at 10 % TVA
(`amountTTC = 220`), owned by `alice`, with its PDF already generated. -/
def sampleInvoice : Invoice :=
  { id := "inv1", title := "Logo", description := none,
    status := InvoiceStatus.DRAFT, clientId := "c1", projectId := none,
    userId := "alice", amountHT := 200, tva := 10, amountTTC := 220,
    pdfUrl := some (pdfFilePath "inv1"), createdAt := 1 }

/-- Database holding exactly `sampleInvoice`. -/
def sampleDb : Db := { invoices := [sampleInvoice], clients := [], projects := [] }

/-- The PDF content generated for `sampleInvoice`. -/
def sampleContent : PdfContent :=
  { title := "Logo", amountHT := 200, tva := 10, amountTTC := 220 }

/-- Filesystem holding the storage directory and `sampleInvoice`'s PDF. -/
def sampleFs : Fs :=
  { dirs := [invoicesDir], files := [(pdfFilePath "inv1", sampleContent)] }

/-- Database with no rows. -/
def emptyDb : Db := { invoices := [], clients := [], projects := [] }

/-- Filesystem with no directories and no files (in particular the PDF
storage directory does not exist). -/
def emptyFs : Fs := { dirs := [], files := [] }

/-- Partial update carrying only `amountHT = 100`. -/
def dtoSetAmountHT : UpdateInvoiceDto :=
  { title := none, description := none, clientId := none, projectId := none,
    amountHT := some 100, tva := none }

/-- Partial update carrying only `tva = 5`. -/
def dtoSetTva : UpdateInvoiceDto :=
  { title := none, description := none, clientId := none, projectId := none,
    amountHT := none, tva := some 5 }

/-- Create input with `amountHT = 1000` and `tva = 20`. -/
def dtoCreate1000 : CreateInvoiceDto :=
  { title := "Site", description := none, clientId := "c1", projectId := none,
    amountHT := 1000, tva := some 20 }

/-! ## Claims -/

/-- Claim C1: the claim requires `update` to recompute `amountTTC` from the
new value where supplied and the previously stored value otherwise.  The
code (`invoice.service.ts` lines 70-73) instead recomputes only when the
input contains `amountHT`, and then uses `dto.tva ?? 20` — the default,
not the stored `tva`.  Evaluated at the stored invoice (`amountHT = 200`,
`tva = 10`, `amountTTC = 220`): updating with only `amountHT = 100`
stores `amountTTC = 120` (computed at the default 20 %) while the stored
`tva` stays 10, so the claim's required value `100 * (1 + 10/100) = 110`
is violated; updating with only `tva = 5` leaves `amountTTC = 220`,
violating the required `200 * (1 + 5/100) = 210`. -/
theorem update_uses_default_tva_not_stored :
    ((App.update sampleDb "alice" "inv1" dtoSetAmountHT).toOption.map
        (fun r => (r.1.invoice.amountTTC, r.1.invoice.tva, r.1.invoice.amountHT)))
      = some (120, 10, 100)
    ∧ (120 : ℚ) ≠ 100 * (1 + 10 / 100)
    ∧ ((App.update sampleDb "alice" "inv1" dtoSetTva).toOption.map
        (fun r => (r.1.invoice.amountTTC, r.1.invoice.tva)))
      = some (220, 5)
    ∧ (220 : ℚ) ≠ 200 * (1 + 5 / 100) := by
  refine ⟨?_, by norm_num, ?_, by norm_num⟩
  · simp [App.update, Except.toOption, sampleDb, dtoSetAmountHT, sampleInvoice,
      App.applyInvoiceUpdate, matchesOwned, joinRelations]
    norm_num
  · simp [App.update, Except.toOption, sampleDb, dtoSetTva, sampleInvoice,
      App.applyInvoiceUpdate, matchesOwned, joinRelations]

/-- Claim C2: `create` computes `amountTTC = amountHT * (1 + tva / 100)`
with `tva` defaulting to 20 when absent from the input; the returned
invoice is the stored one (it is a member of the resulting table).  The
input type `CreateInvoiceDto` has no `amountTTC` field, so the stored
value is computed server-side by construction.  In particular
`amountHT = 1000, tva = 20` yields `amountTTC = 1200`. -/
theorem create_computes_amountTTC (db : Db) (fs : Fs) (userId freshId : String)
    (now : ℕ) (dto : CreateInvoiceDto) :
    (App.create db fs userId freshId now dto).1.amountTTC
        = dto.amountHT * (1 + dto.tva.getD 20 / 100)
    ∧ (App.create db fs userId freshId now dto).1.tva = dto.tva.getD 20
    ∧ (App.create db fs userId freshId now dto).1
        ∈ (App.create db fs userId freshId now dto).2.1.invoices
    ∧ (App.create emptyDb sampleFs "u" "i1" 0 dtoCreate1000).1.amountTTC = 1200 := by
  refine ⟨rfl, rfl, ?_, ?_⟩
  · simp only [App.create, setPdfUrl, List.map_append, List.mem_append, List.map_cons,
      List.map_nil, List.mem_cons]
    right
    simp
  · simp [App.create, dtoCreate1000, PdfService.generate]
    norm_num

/-- Claim C3: the claim says `findOne` fails with NotFound when the id is
absent or the invoice is owned by another user.  The code
(`invoice.service.ts` lines 58-63) returns the `findFirst` result
directly: on a miss it resolves successfully with `null` — it never
fails.  Evaluated at a database whose only invoice is owned by `alice`: a
caller `bob` gets `ok null` both for that id and for a nonexistent id
(the two cases are indeed indistinguishable, but neither is a failure),
while `update` and `remove` do reject with the persistence layer's
not-found error in both cases. -/
theorem findOne_resolves_null_not_notFound :
    App.findOne sampleDb "bob" "inv1" = Except.ok none
    ∧ App.findOne sampleDb "bob" "ghost" = Except.ok none
    ∧ (Except.ok none : Except ServiceError (Option JoinedInvoice))
        ≠ Except.error ServiceError.notFound
    ∧ App.update sampleDb "bob" "inv1" dtoSetTva = Except.error ServiceError.notFound
    ∧ App.update sampleDb "bob" "ghost" dtoSetTva = Except.error ServiceError.notFound
    ∧ App.remove sampleDb sampleFs "bob" "inv1" = Except.error ServiceError.notFound
    ∧ App.remove sampleDb sampleFs "bob" "ghost" = Except.error ServiceError.notFound := by
  refine ⟨rfl, rfl, ?_, rfl, rfl, rfl, rfl⟩
  intro h
  exact Except.noConfusion h

/-- Claim C4: the claim says `remove` deletes the database row and
best-effort deletes the PDF file when `pdfUrl` is set.  The code
(`invoice.service.ts` lines 82-86) only calls `prisma.invoice.delete`; it
performs no filesystem operation at all.  Evaluated at a database whose
only invoice is owned by `alice` with `pdfUrl` set and whose file exists:
the row is deleted but the filesystem — including the invoice's PDF — is
returned unchanged. -/
theorem remove_leaves_pdf_file_in_place :
    App.remove sampleDb sampleFs "alice" "inv1"
      = Except.ok (sampleInvoice, emptyDb, sampleFs)
    ∧ (pdfFilePath "inv1", sampleContent) ∈ sampleFs.files := by
  exact ⟨rfl, by simp [sampleFs]⟩


/-- Invoice owned by `alice` created at time 1. -/
def invoiceOlder : Invoice := { sampleInvoice with id := "a", createdAt := 1 }

/-- Invoice owned by `bob`, the newest row of the table (time 5). -/
def invoiceOfBob : Invoice :=
  { sampleInvoice with id := "x", userId := "bob", createdAt := 5 }

/-- Invoice owned by `alice` created at time 2. -/
def invoiceNewer : Invoice := { sampleInvoice with id := "b", createdAt := 2 }

/-- Table holding, in insertion order, alice's older invoice, bob's
invoice, and alice's newer invoice. -/
def orderDb : Db :=
  { invoices := [invoiceOlder, invoiceOfBob, invoiceNewer],
    clients := [], projects := [] }

/-- Claim C6: the claim says `findAll` returns the caller's invoices
ordered newest-first by creation time.  The code (`invoice.service.ts`
lines 51-56) issues `findMany` with a `userId` filter and the joins but no
`orderBy` clause, so rows come back in the store's own (insertion) order.
Evaluated at a table holding alice's invoices created at times 1 and 2
(and one of bob's): alice receives exactly her own two invoices, but as
`[1, 2]` — the older one first — not newest-first.  A caller with no
invoices receives the empty list. -/
theorem findAll_returns_storage_order :
    ((App.findAll orderDb "alice").map (fun j => j.invoice.createdAt)) = [1, 2]
    ∧ (1 : ℕ) < 2
    ∧ App.findAll orderDb "carol" = [] := by
  exact ⟨rfl, by norm_num, rfl⟩

/-- Claim C8: the claim says `generate` creates the storage directory when
it is absent, and that on a failed write the caller does not persist a
`pdfUrl`.  The code (`pdf.service.ts` lines 16-34) contains no directory
check or `mkdirSync`; it opens the write stream, returns the path
unconditionally, and `create` (`invoice.service.ts` lines 28-48) persists
that path with no error handling.  Evaluated on a filesystem where the
storage directory does not exist: the filesystem afterwards is unchanged —
no directory was created and no file was written — yet the returned
invoice and the stored row both carry `pdfUrl` set to the derived path. -/
theorem create_without_directory_persists_pdfUrl :
    (App.create emptyDb emptyFs "u" "i1" 0 dtoCreate1000).2.2 = emptyFs
    ∧ (App.create emptyDb emptyFs "u" "i1" 0 dtoCreate1000).1.pdfUrl
        = some (pdfFilePath "i1")
    ∧ ((App.create emptyDb emptyFs "u" "i1" 0 dtoCreate1000).2.1.invoices.map
        (fun i => i.pdfUrl)) = [some (pdfFilePath "i1")] := by
  exact ⟨rfl, rfl, rfl⟩

/-- Raw create body whose `amountHT` is the negative number -100 and whose
other fields are well-formed. -/
def rawNegativeAmount : RawCreateInvoice :=
  { title := RawField.str "Site", description := RawField.missing,
    clientId := RawField.str "c1", projectId := RawField.missing,
    amountHT := RawField.num (-100), tva := RawField.missing }

/-- Claim C9, counterexample: the claim says a negative amount
(`amountHT < 0`) is rejected with ValidationError before any persistence
or generation.  `CreateInvoiceDto` carries no `@Min`/`@IsPositive`
decorator, only `@IsNumber`, so `amountHT = -100` passes validation, and
the create pipeline persists a database record (with `amountTTC = -120`)
and writes the PDF file. -/
theorem negative_amountHT_passes_validation :
    validateCreateInvoice rawNegativeAmount
      = Except.ok { title := "Site", description := none, clientId := "c1",
                    projectId := none, amountHT := -100, tva := none }
    ∧ ((createEndpoint emptyDb sampleFs "u" "i1" 0 rawNegativeAmount).2.1.invoices.map
        (fun i => (i.amountHT, i.amountTTC)))
      = [(-100, -120)]
    ∧ (-100 : ℚ) < 0 := by
  refine ⟨rfl, ?_, by norm_num⟩
  simp [createEndpoint, validateCreateInvoice, rawNegativeAmount, requireString,
    optionalString, requireNumber, optionalNumber, App.create, setPdfUrl,
    PdfService.generate, sampleFs, emptyDb]
  norm_num

/-- Claim C9, amended: an input rejected by one of the DTO's decorators —
a missing or wrong-typed required field (`title`, `clientId` strings,
`amountHT` number) or a wrong-typed optional field (`description`,
`projectId` strings, `tva` number) — is rejected with ValidationError
before the service runs: no database record is written and no file is
created.  (Negative `amountHT` is not among the rejected inputs; see the
counterexample.) -/
theorem malformed_input_rejected_before_side_effects
    (raw : RawCreateInvoice) (db : Db) (fs : Fs) (u fid : String) (now : ℕ)
    (h : requireString raw.title = none ∨ optionalString raw.description = none
       ∨ requireString raw.clientId = none ∨ optionalString raw.projectId = none
       ∨ requireNumber raw.amountHT = none ∨ optionalNumber raw.tva = none) :
    createEndpoint db fs u fid now raw
      = (Except.error ValidationError.badRequest, db, fs) := by
  unfold createEndpoint validateCreateInvoice
  cases ht : requireString raw.title <;>
    cases hd : optionalString raw.description <;>
      cases hc : requireString raw.clientId <;>
        cases hp : optionalString raw.projectId <;>
          cases ha : requireNumber raw.amountHT <;>
            cases hv : optionalNumber raw.tva <;>
              simp_all

/-- Raw create body missing the required `title` field. -/
def rawMissingTitle : RawCreateInvoice :=
  { title := RawField.missing, description := RawField.missing,
    clientId := RawField.str "c1", projectId := RawField.missing,
    amountHT := RawField.num 100, tva := RawField.missing }

/-- Witness for the amended C9 theorem: the concrete body missing `title`
is malformed, and the pipeline rejects it leaving database and filesystem
untouched. -/
theorem malformed_input_rejected_witness :
    (requireString rawMissingTitle.title = none
       ∨ optionalString rawMissingTitle.description = none
       ∨ requireString rawMissingTitle.clientId = none
       ∨ optionalString rawMissingTitle.projectId = none
       ∨ requireNumber rawMissingTitle.amountHT = none
       ∨ optionalNumber rawMissingTitle.tva = none)
    ∧ createEndpoint emptyDb sampleFs "u" "i1" 0 rawMissingTitle
        = (Except.error ValidationError.badRequest, emptyDb, sampleFs) :=
  ⟨Or.inl rfl,
    malformed_input_rejected_before_side_effects rawMissingTitle emptyDb sampleFs
      "u" "i1" 0 (Or.inl rfl)⟩


/-- Helper: the status-only row update of `updateStatus`, as issued by
`prisma.invoice.updateMany({ where: { id, userId }, data: { status } })`. -/
def statusWrite (db : Db) (id oid : String) (st : InvoiceStatus) : List Invoice :=
  db.invoices.map (fun k => if matchesOwned id oid k then { k with status := st } else k)

/-- Claim C5: for an invoice owned by the caller, `updateStatus` (the
version documented in `src/unnamed/part_003` lines 499-506) succeeds and
rewrites exactly the `status` column of the matching rows — to the new
value, with no hypothesis on the prior status — leaving title, amounts,
tva, amountTTC and pdfUrl of every row unchanged, and leaving unmatched
rows and the client/project tables untouched.  The method never calls
`pdfService`, so no PDF is regenerated. -/
theorem updateStatus_sets_exactly_status
    (db : Db) (oid id : String) (st : InvoiceStatus) (inv : Invoice)
    (hmem : inv ∈ db.invoices) (hmatch : matchesOwned id oid inv = true) :
    Doc.updateStatus db oid id st
      = Except.ok ((db.invoices.filter (matchesOwned id oid)).length,
          { db with invoices := statusWrite db id oid st })
    ∧ { inv with status := st } ∈ statusWrite db id oid st
    ∧ ∀ k ∈ db.invoices, matchesOwned id oid k = false →
        k ∈ statusWrite db id oid st := by
  have hfind : (db.invoices.find? (matchesOwned id oid)).isSome :=
    List.find?_isSome.mpr ⟨inv, hmem, hmatch⟩
  obtain ⟨j, hj⟩ := Option.isSome_iff_exists.mp hfind
  refine ⟨?_, ?_, ?_⟩
  · unfold Doc.updateStatus Doc.findOne statusWrite
    rw [hj]
  · exact List.mem_map.mpr ⟨inv, hmem, by rw [hmatch]; simp⟩
  · intro k hkmem hkfalse
    exact List.mem_map.mpr ⟨k, hkmem, by rw [hkfalse]; simp⟩

/-- A stored invoice in status PAID (otherwise `sampleInvoice`). -/
def paidInvoice : Invoice := { sampleInvoice with status := InvoiceStatus.PAID }

/-- Database holding exactly `paidInvoice`. -/
def paidDb : Db := { invoices := [paidInvoice], clients := [], projects := [] }

/-- Witness for C5: the PAID invoice is owned by alice, and setting its
status back to DRAFT (a reverse transition) succeeds, storing exactly
DRAFT with every other field unchanged. -/
theorem updateStatus_witness :
    (paidInvoice ∈ paidDb.invoices ∧ matchesOwned "inv1" "alice" paidInvoice = true)
    ∧ Doc.updateStatus paidDb "alice" "inv1" InvoiceStatus.DRAFT
        = Except.ok (1, { invoices := [{ paidInvoice with status := InvoiceStatus.DRAFT }],
                          clients := [], projects := [] }) := by
  have hm : paidInvoice ∈ paidDb.invoices := by simp [paidDb]
  refine ⟨⟨hm, rfl⟩, ?_⟩
  exact Eq.trans
    (updateStatus_sets_exactly_status paidDb "alice" "inv1" InvoiceStatus.DRAFT
      paidInvoice hm rfl).1
    (by rfl)

/-- Helper: the path key survives a `putFile` at that key. -/
theorem putFile_mem_keys (l : List (String × PdfContent)) (p : String) (c : PdfContent) :
    p ∈ (putFile l p c).map Prod.fst := by
  induction l with
  | nil => simp [putFile]
  | cons hd tl ih =>
      obtain ⟨q, d⟩ := hd
      by_cases hq : q = p <;> simp [putFile, hq, ih]

/-- Helper: a `putFile` at a key that already exists replaces the entry and
leaves the set of file paths unchanged. -/
theorem putFile_keys_of_mem (l : List (String × PdfContent)) (p : String) (c : PdfContent)
    (h : p ∈ l.map Prod.fst) : (putFile l p c).map Prod.fst = l.map Prod.fst := by
  induction l with
  | nil => simp at h
  | cons hd tl ih =>
      obtain ⟨q, d⟩ := hd
      by_cases hq : q = p
      · simp [putFile, hq]
      · have hp : p ∈ tl.map Prod.fst := by
          rcases List.mem_cons.mp h with h1 | h1
          · exact absurd h1.symm hq
          · exact h1
        simp [putFile, hq, ih hp]

/-- Claim C7: the path returned by `generate` is a function of the invoice
identifier alone — two calls with snapshots sharing an id return the same
path, namely `invoice-<id>.pdf` inside the fixed storage directory — and
generating again for the same id writes at the same path, so the set of
file paths on disk does not grow (regeneration overwrites rather than
accumulating files). -/
theorem generate_path_deterministic (fs1 fs2 : Fs) (a b : InvoiceData)
    (h : a.id = b.id) :
    (PdfService.generate fs1 a).1 = (PdfService.generate fs2 b).1
    ∧ (PdfService.generate fs1 a).1 = invoicesDir ++ "/" ++ pdfFileName a.id
    ∧ ((PdfService.generate (PdfService.generate fs1 a).2 b).2.files.map Prod.fst)
        = ((PdfService.generate fs1 a).2.files.map Prod.fst) := by
  refine ⟨by simp [PdfService.generate, pdfFilePath, h], rfl, ?_⟩
  unfold PdfService.generate
  by_cases hdir : invoicesDir ∈ fs1.dirs
  · simp only [hdir, if_true]
    rw [← h]
    exact putFile_keys_of_mem _ _ _ (putFile_mem_keys _ _ _)
  · simp [hdir]

/-- First snapshot of the sample invoice. -/
def snapshotV1 : InvoiceData :=
  { id := "inv1", title := "Logo", amountHT := 200, amountTTC := 220, tva := 10 }

/-- A later snapshot of the same invoice with different amounts. -/
def snapshotV2 : InvoiceData :=
  { id := "inv1", title := "Logo", amountHT := 300, amountTTC := 360, tva := 20 }

/-- Witness for C7: two snapshots of invoice `inv1` with different amounts
yield the same path, and regenerating leaves the set of stored paths
unchanged. -/
theorem generate_path_witness :
    snapshotV1.id = snapshotV2.id
    ∧ ((PdfService.generate sampleFs snapshotV1).1
        = (PdfService.generate emptyFs snapshotV2).1
      ∧ (PdfService.generate sampleFs snapshotV1).1
          = invoicesDir ++ "/" ++ pdfFileName snapshotV1.id
      ∧ ((PdfService.generate (PdfService.generate sampleFs snapshotV1).2 snapshotV2).2.files.map
            Prod.fst)
          = ((PdfService.generate sampleFs snapshotV1).2.files.map Prod.fst)) :=
  ⟨rfl, generate_path_deterministic sampleFs emptyFs snapshotV1 snapshotV2 rfl⟩

/-- States reachable through the operations the app's invoice engine
exposes (`invoice.controller.ts` lines 18-51: create, findAll, findOne,
update, remove — there is no status route), starting from a database with
no invoices (clients and projects arbitrary, since their registries never
write invoice rows).  `findAll` and `findOne` do not change state. -/
inductive Reachable : Db → Fs → Prop
  | init (cs : List Client) (ps : List Project) (fs : Fs) :
      Reachable { invoices := [], clients := cs, projects := ps } fs
  | create {db : Db} {fs : Fs} (u fid : String) (now : ℕ) (dto : CreateInvoiceDto) :
      Reachable db fs →
      Reachable (App.create db fs u fid now dto).2.1 (App.create db fs u fid now dto).2.2
  | update {db : Db} {fs : Fs} (u id : String) (dto : UpdateInvoiceDto)
      {j : JoinedInvoice} {db' : Db} :
      Reachable db fs → App.update db u id dto = Except.ok (j, db') →
      Reachable db' fs
  | remove {db : Db} {fs : Fs} (u id : String) {inv : Invoice} {db' : Db} {fs' : Fs} :
      Reachable db fs → App.remove db fs u id = Except.ok (inv, db', fs') →
      Reachable db' fs'

/-- Claim C10: in every reachable state of the app's invoice engine, every
stored invoice has status DRAFT: `create` writes the literal `'DRAFT'`,
the update DTO has no status field so `update` never writes the status
column, and no other exposed operation writes invoice rows. -/
theorem reachable_invoices_all_draft (db : Db) (fs : Fs) (h : Reachable db fs) :
    (db.invoices.all (fun inv => inv.status == InvoiceStatus.DRAFT)) = true := by
  induction h with
  | init cs ps fs => rfl
  | create u fid now dto hr ih =>
      rename_i dbp fsp
      simp only [List.all_eq_true] at ih ⊢
      intro x hx
      simp only [App.create, setPdfUrl, List.mem_map, List.mem_append,
        List.mem_singleton] at hx
      obtain ⟨y, hy, rfl⟩ := hx
      rcases hy with hy | rfl
      · have hys := ih y hy
        by_cases hid : (y.id == fid) = true
        · simpa [hid] using hys
        · simpa [hid] using hys
      · simp
  | update u id dto hr hok ih =>
      rename_i dbp fsp jp dbp2
      simp only [App.update] at hok
      cases hfind : dbp.invoices.find? (matchesOwned id u) with
      | none => rw [hfind] at hok; exact Except.noConfusion hok
      | some inv =>
          rw [hfind] at hok
          simp only [Except.ok.injEq, Prod.mk.injEq] at hok
          obtain ⟨-, hdb⟩ := hok
          subst hdb
          simp only [List.all_eq_true] at ih ⊢
          intro x hx
          simp only [List.mem_map] at hx
          obtain ⟨y, hy, rfl⟩ := hx
          have hinv : inv ∈ dbp.invoices := List.mem_of_find?_eq_some hfind
          by_cases hc : matchesOwned id u y = true
          · simpa [hc, App.applyInvoiceUpdate] using ih inv hinv
          · simpa [hc] using ih y hy
  | remove u id hr hok ih =>
      rename_i dbp fsp invp dbp2 fsp2
      simp only [App.remove] at hok
      cases hfind : dbp.invoices.find? (matchesOwned id u) with
      | none => rw [hfind] at hok; exact Except.noConfusion hok
      | some inv =>
          rw [hfind] at hok
          simp only [Except.ok.injEq, Prod.mk.injEq] at hok
          obtain ⟨-, hdb, -⟩ := hok
          subst hdb
          simp only [List.all_eq_true] at ih ⊢
          intro x hx
          exact ih x (List.mem_of_mem_filter hx)

/-- Witness for C10: the state after one `create` on an empty database is
reachable, and every invoice in it has status DRAFT. -/
theorem reachable_invoices_all_draft_witness :
    Reachable (App.create emptyDb sampleFs "u" "i1" 0 dtoCreate1000).2.1
        (App.create emptyDb sampleFs "u" "i1" 0 dtoCreate1000).2.2
    ∧ ((App.create emptyDb sampleFs "u" "i1" 0 dtoCreate1000).2.1.invoices.all
        (fun inv => inv.status == InvoiceStatus.DRAFT)) = true := by
  have hr : Reachable (App.create emptyDb sampleFs "u" "i1" 0 dtoCreate1000).2.1
      (App.create emptyDb sampleFs "u" "i1" 0 dtoCreate1000).2.2 :=
    Reachable.create "u" "i1" 0 dtoCreate1000 (Reachable.init [] [] sampleFs)
  exact ⟨hr, reachable_invoices_all_draft _ _ hr⟩

end NimbusLance
